import Mathlib

/-!
Verification development for the sage-billing-engine core
(entitlement cache, usage counters, event consumers, SQS consume loop),
shallowly embedded from src/app.

Modelling conventions:
  - Python floats are modelled as rationals.
  - Redis is modelled as an explicit state (association lists of keys);
    a key present in the list is a live (unexpired) entry, TTLs are
    recorded on write.
  - Stripe is an oracle (Env) mapping inputs to results; every client
    call is recorded in a call trace so "no provider call happened" is
    expressible.  Fallible calls return Except.
  - Python exceptions are modelled as Except results paired with the
    state at the point the exception escapes.
  - Python string truthiness (None and the empty string are falsy) is
    modelled by pyTruthy.
-/

/-- Plan tiers, from app/models/enums.py PlanTier. -/
inductive PlanTier where
  | free
  | starter
  | growth
  | enterprise
  deriving DecidableEq, Repr

/-- Parse of Python PlanTier(str); none models the ValueError case. -/
def planTierOfString? (s : String) : Option PlanTier :=
  if s = "free" then some .free
  else if s = "starter" then some .starter
  else if s = "growth" then some .growth
  else if s = "enterprise" then some .enterprise
  else none

/-- Stripe subscription statuses, from app/models/enums.py SubscriptionStatus. -/
inductive SubscriptionStatus where
  | active
  | past_due
  | canceled
  | incomplete
  | incomplete_expired
  | trialing
  | unpaid
  | paused
  deriving DecidableEq, Repr

/-- Parse of Python SubscriptionStatus(str); none models the ValueError case. -/
def subscriptionStatusOfString? (s : String) : Option SubscriptionStatus :=
  if s = "active" then some .active
  else if s = "past_due" then some .past_due
  else if s = "canceled" then some .canceled
  else if s = "incomplete" then some .incomplete
  else if s = "incomplete_expired" then some .incomplete_expired
  else if s = "trialing" then some .trialing
  else if s = "unpaid" then some .unpaid
  else if s = "paused" then some .paused
  else none

/-- Usage event types, from app/models/enums.py UsageEventType. -/
inductive UsageEventType where
  | ai_credits
  | whatsapp_message
  | email_send
  | sms_send
  deriving DecidableEq, Repr

/-- The .value string of each UsageEventType member. -/
def UsageEventType.value : UsageEventType → String
  | .ai_credits => "ai_credits"
  | .whatsapp_message => "whatsapp_message"
  | .email_send => "email_send"
  | .sms_send => "sms_send"

/-- Iteration order of `for meter in UsageEventType` (declaration order). -/
def UsageEventType.all : List UsageEventType :=
  [.ai_credits, .whatsapp_message, .email_send, .sms_send]

/-- UsageSummary, from app/models/schemas.py. -/
structure UsageSummary where
  used : ℚ := 0
  limit : Option ℚ := none
  percentage : Option ℚ := none
  deriving DecidableEq, Repr

/-- EntitlementResponse, from app/models/schemas.py.  cached_at is an
abstract timestamp (Nat). -/
structure EntitlementResponse where
  workspace_id : String
  has_active_subscription : Bool
  plan_tier : Option PlanTier := none
  subscription_status : Option SubscriptionStatus := none
  features : List String := []
  usage : List (String × UsageSummary) := []
  is_quota_exceeded : Bool := false
  payment_overdue : Bool := false
  stripe_customer_id : Option String := none
  cached : Bool := false
  cached_at : Option Nat := none
  deriving DecidableEq, Repr

/-- The configuration values from app/core/config.py that this core reads. -/
structure Settings where
  ENTITLEMENT_CACHE_TTL : Nat := 120
  STRIPE_METER_AI_CREDITS : String := "ai_credits"
  STRIPE_METER_WHATSAPP_MESSAGES : String := "whatsapp_messages"
  STRIPE_METER_EMAIL_SENDS : String := "email_sends"
  deriving Repr

/-- The settings singleton with its defaults. -/
def settings : Settings := {}

/-- Feature map fallback, from entitlement_service.py PLAN_FEATURES. -/
def PLAN_FEATURES : PlanTier → List String
  | .free => ["ai_chat"]
  | .starter => ["ai_chat", "whatsapp", "email_campaigns"]
  | .growth => ["ai_chat", "whatsapp", "email_campaigns", "automations", "custom_actions"]
  | .enterprise =>
      ["ai_chat", "whatsapp", "email_campaigns", "automations", "custom_actions",
       "dedicated_support", "sla", "custom_integrations"]

/-- Redis key for a workspace entitlement snapshot (ENTITLEMENT_KEY). -/
def ENTITLEMENT_KEY (workspace_id : String) : String :=
  "entitlements:" ++ workspace_id

/-- Redis key for a usage counter (USAGE_COUNTER_KEY). -/
def USAGE_COUNTER_KEY (workspace_id meter : String) : String :=
  "usage:" ++ workspace_id ++ ":" ++ meter

/-- Python string truthiness of an optional string: None and empty are falsy. -/
def pyTruthy (s : Option String) : Bool :=
  match s with
  | none => false
  | some v => !(v == "")

/-- Lookup in an association list keyed by strings (a Redis keyspace / dict). -/
def assocGet {α : Type} (l : List (String × α)) (k : String) : Option α :=
  match l with
  | [] => none
  | (k2, v) :: rest => if k2 = k then some v else assocGet rest k

/-- Overwriting insert into an association list (Redis SET semantics). -/
def assocSet {α : Type} (l : List (String × α)) (k : String) (v : α) :
    List (String × α) :=
  match l with
  | [] => [(k, v)]
  | (k2, v2) :: rest => if k2 = k then (k, v) :: rest else (k2, v2) :: assocSet rest k v

/-- Key removal from an association list (Redis DEL semantics, delete-if-present). -/
def assocDelete {α : Type} (l : List (String × α)) (k : String) :
    List (String × α) :=
  match l with
  | [] => []
  | (k2, v2) :: rest => if k2 = k then assocDelete rest k else (k2, v2) :: assocDelete rest k

/-- A cached entitlement snapshot together with the TTL it was written with. -/
structure CacheEntry where
  value : EntitlementResponse
  ttl : Nat
  deriving DecidableEq, Repr

/-- A usage counter value; ttl is the TTL recorded on the last explicit
set-with-TTL (incrbyfloat on a fresh key creates it without a TTL). -/
structure CounterEntry where
  value : ℚ
  ttl : Option Nat := none
  deriving DecidableEq, Repr

/-- A Stripe customer as read by this core (only the id is consumed). -/
structure StripeCustomer where
  id : String
  deriving DecidableEq, Repr

/-- The fields of the product object that _fetch_entitlements_from_stripe
reads.  metadata_limit models the parsed float of the metadata key
(meter ++ "_limit"): none when the key is absent or its value is the
empty string (both falsy under the source's truthiness test). -/
structure StripeProduct where
  metadata_tier : Option String := none
  metadata_features : Option String := none
  metadata_limit : String → Option ℚ := fun _ => none

/-- The fields of the subscription object that this core reads. -/
structure StripeSubscription where
  product : StripeProduct
  status : Option String := none

/-- A provider call, recorded in the world's call trace. -/
inductive StripeCall where
  | getCustomerByWorkspace (workspace_id : String)
  | getActiveSubscription (customer_id : String)
  | createMeterEvent (event_name stripe_customer_id : String) (value : ℚ)
      (timestamp : Option Nat)
  | markInvoicePaidOutOfBand (invoice_id : String)
  deriving DecidableEq, Repr

/-- The mutable world: the Redis cache and counters, plus the trace of
provider calls made (newest first). -/
structure World where
  cache : List (String × CacheEntry) := []
  counters : List (String × CounterEntry) := []
  calls : List StripeCall := []

/-- The external oracle: what the Stripe API would answer, plus fault
injection for the fallible calls and for the Redis counter increment. -/
structure Env where
  get_customer_by_workspace : String → Option StripeCustomer
  get_active_subscription : String → Option StripeSubscription
  create_meter_event_result : String → String → ℚ → Except String (Option String)
  mark_invoice_paid_result : String → Except String Unit
  redis_increment_fails : Bool := false

/-- stripe_client.get_customer_by_workspace, with the call traced. -/
def stripe_get_customer_by_workspace (env : Env) (w : World) (workspace_id : String) :
    Option StripeCustomer × World :=
  (env.get_customer_by_workspace workspace_id,
   { w with calls := .getCustomerByWorkspace workspace_id :: w.calls })

/-- stripe_client.get_active_subscription, with the call traced. -/
def stripe_get_active_subscription (env : Env) (w : World) (customer_id : String) :
    Option StripeSubscription × World :=
  (env.get_active_subscription customer_id,
   { w with calls := .getActiveSubscription customer_id :: w.calls })

/-- stripe_client.create_meter_event; ok carries the optional event identifier. -/
def stripe_create_meter_event (env : Env) (w : World) (event_name : String)
    (stripe_customer_id : String) (value : ℚ) (timestamp : Option Nat) :
    Except String (Option String) × World :=
  (env.create_meter_event_result event_name stripe_customer_id value,
   { w with calls :=
      .createMeterEvent event_name stripe_customer_id value timestamp :: w.calls })

/-- stripe_client.mark_invoice_paid_out_of_band. -/
def stripe_mark_invoice_paid_out_of_band (env : Env) (w : World) (invoice_id : String) :
    Except String Unit × World :=
  (env.mark_invoice_paid_result invoice_id,
   { w with calls := .markInvoicePaidOutOfBand invoice_id :: w.calls })

/-- redis_client.get_float: missing key reads as 0. -/
def redis_get_float (w : World) (key : String) : ℚ :=
  match assocGet w.counters key with
  | some e => e.value
  | none => 0

/-- redis_client.increment_float (INCRBYFLOAT): atomic add, creating the
key (without TTL) when absent, preserving its TTL when present. -/
def redis_increment_float (w : World) (key : String) (amount : ℚ) : ℚ × World :=
  match assocGet w.counters key with
  | some e =>
      (e.value + amount,
       { w with counters := assocSet w.counters key { e with value := e.value + amount } })
  | none =>
      (amount, { w with counters := assocSet w.counters key { value := amount } })

/-- redis_client.set_with_ttl on a counter key. -/
def redis_set_with_ttl (w : World) (key : String) (value : ℚ) (ttl_seconds : Nat) :
    World :=
  { w with counters := assocSet w.counters key { value := value, ttl := some ttl_seconds } }

/-- redis_client.get_cached_json on the entitlement keyspace. -/
def redis_get_cached_json (w : World) (key : String) : Option EntitlementResponse :=
  (assocGet w.cache key).map (fun e => e.value)

/-- redis_client.set_cached_json: overwrite with TTL. -/
def redis_set_cached_json (w : World) (key : String) (value : EntitlementResponse)
    (ttl_seconds : Nat) : World :=
  { w with cache := assocSet w.cache key { value := value, ttl := ttl_seconds } }

/-- redis_client.delete_cached: delete-if-present, never errors. -/
def redis_delete_cached (w : World) (key : String) : World :=
  { w with cache := assocDelete w.cache key }

/-- entitlement_service._fetch_entitlements_from_stripe. -/
def fetch_entitlements_from_stripe (env : Env) (w : World) (workspace_id : String) :
    EntitlementResponse × World :=
  let r1 := stripe_get_customer_by_workspace env w workspace_id
  match r1.1 with
  | none =>
      ({ workspace_id := workspace_id
         has_active_subscription := false
         plan_tier := some .free
         subscription_status := none
         features := PLAN_FEATURES .free
         is_quota_exceeded := false }, r1.2)
  | some customer =>
      let r2 := stripe_get_active_subscription env r1.2 customer.id
      match r2.1 with
      | none =>
          ({ workspace_id := workspace_id
             has_active_subscription := false
             plan_tier := some .free
             subscription_status := some .canceled
             features := PLAN_FEATURES .free
             stripe_customer_id := some customer.id }, r2.2)
      | some subscription =>
          let product_obj := subscription.product
          let plan_tier_str := product_obj.metadata_tier.getD "starter"
          let plan_tier := (planTierOfString? plan_tier_str).getD .starter
          let features_str := product_obj.metadata_features.getD ""
          let features :=
            if features_str ≠ "" then (features_str.splitOn ",").map (fun f => f.trim)
            else PLAN_FEATURES plan_tier
          let usage : List (String × UsageSummary) :=
            ["ai_credits", "whatsapp_messages", "email_sends"].filterMap
              (fun meter_name =>
                match product_obj.metadata_limit meter_name with
                | none => none
                | some limit =>
                    let current_used :=
                      redis_get_float r2.2 (USAGE_COUNTER_KEY workspace_id meter_name)
                    some (meter_name,
                      { used := current_used
                        limit := some limit
                        percentage :=
                          some (if 0 < limit then current_used / limit * 100 else 0) }))
          let sub_status_str := subscription.status.getD "active"
          let sub_status := (subscriptionStatusOfString? sub_status_str).getD .active
          let is_quota_exceeded := usage.any (fun p =>
            match p.2.limit with
            | some l => decide (l ≤ p.2.used)
            | none => false)
          ({ workspace_id := workspace_id
             has_active_subscription := true
             plan_tier := some plan_tier
             subscription_status := some sub_status
             features := features
             usage := usage
             is_quota_exceeded := is_quota_exceeded
             payment_overdue := subscription.status == some "past_due"
             stripe_customer_id := some customer.id }, r2.2)

/-- The TTL used by the write-back: Python's (ttl or settings.ENTITLEMENT_CACHE_TTL),
where a falsy override (None or 0) falls back to the configured default. -/
def entitlement_cache_ttl (ttl : Option Nat) : Nat :=
  match ttl with
  | some t => if t = 0 then settings.ENTITLEMENT_CACHE_TTL else t
  | none => settings.ENTITLEMENT_CACHE_TTL

/-- entitlement_service.get_entitlements.  now is the timestamp stamped
into cached_at on the rebuild path. -/
def get_entitlements (env : Env) (w : World) (workspace_id : String)
    (refresh : Bool) (ttl : Option Nat) (now : Nat) :
    EntitlementResponse × World :=
  let cache_ttl := entitlement_cache_ttl ttl
  let cache_key := ENTITLEMENT_KEY workspace_id
  let rebuild : EntitlementResponse × World :=
    let fetched := fetch_entitlements_from_stripe env w workspace_id
    let entitlements := { fetched.1 with cached_at := some now }
    (entitlements, redis_set_cached_json fetched.2 cache_key entitlements cache_ttl)
  if refresh = false then
    match redis_get_cached_json w cache_key with
    | some cached => ({ cached with cached := true }, w)
    | none => rebuild
  else rebuild

/-- entitlement_service.check_feature_access. -/
def check_feature_access (env : Env) (w : World) (workspace_id feature : String)
    (now : Nat) : Bool × World :=
  let r := get_entitlements env w workspace_id false none now
  (r.1.features.contains feature && r.1.has_active_subscription, r.2)

/-- entitlement_service.check_usage_limit: snapshot supplies the limit,
the live Redis counter supplies the compared value. -/
def check_usage_limit (env : Env) (w : World) (workspace_id meter : String)
    (now : Nat) : Bool × World :=
  let r := get_entitlements env w workspace_id false none now
  match assocGet r.1.usage meter with
  | none => (false, r.2)
  | some usage =>
      match usage.limit with
      | none => (false, r.2)
      | some limit =>
          let current_usage := redis_get_float r.2 (USAGE_COUNTER_KEY workspace_id meter)
          (decide (limit ≤ current_usage), r.2)

/-- entitlement_service.invalidate_entitlements. -/
def invalidate_entitlements (w : World) (workspace_id : String) : World :=
  redis_delete_cached w (ENTITLEMENT_KEY workspace_id)

/-- entitlement_service.increment_usage_counter; the env flag injects a
Redis failure (the exception a broken increment would raise). -/
def increment_usage_counter (env : Env) (w : World) (workspace_id meter : String)
    (value : ℚ) : Except String ℚ × World :=
  if env.redis_increment_fails then (.error "redis increment failed", w)
  else
    let r := redis_increment_float w (USAGE_COUNTER_KEY workspace_id meter) value
    (.ok r.1, r.2)

/-- entitlement_service.reset_usage_counter: set to value with a 35-day TTL. -/
def reset_usage_counter (w : World) (workspace_id meter : String) (value : ℚ := 0) :
    World :=
  redis_set_with_ttl w (USAGE_COUNTER_KEY workspace_id meter) value (86400 * 35)

/-- usage_service.EVENT_TYPE_TO_METER: dict lookup; sms_send has no entry. -/
def EVENT_TYPE_TO_METER : UsageEventType → Option String
  | .ai_credits => some settings.STRIPE_METER_AI_CREDITS
  | .whatsapp_message => some settings.STRIPE_METER_WHATSAPP_MESSAGES
  | .email_send => some settings.STRIPE_METER_EMAIL_SENDS
  | .sms_send => none

/-- UsageEventRequest, from app/models/schemas.py (the fields this core reads). -/
structure UsageEventRequest where
  workspace_id : String
  event_type : UsageEventType
  value : ℚ
  idempotency_key : Option String := none
  timestamp : Option Nat := none
  deriving DecidableEq, Repr

/-- The dict returned by usage_service.record_usage_event. -/
structure RecordUsageResult where
  status : String
  meter_event_id : Option String
  current_total : ℚ
  deriving DecidableEq, Repr

/-- usage_service.record_usage_event: the synchronous path.  Customer
resolution failure and unknown event type raise ValueError; a meter-push
or counter-increment failure propagates. -/
def record_usage_event (env : Env) (w : World) (event : UsageEventRequest) :
    Except String RecordUsageResult × World :=
  let r1 := stripe_get_customer_by_workspace env w event.workspace_id
  match r1.1 with
  | none =>
      (.error ("No Stripe customer found for workspace " ++ event.workspace_id), r1.2)
  | some customer =>
      match EVENT_TYPE_TO_METER event.event_type with
      | none => (.error "Unknown event type", r1.2)
      | some meter_name =>
          let r2 := stripe_create_meter_event env r1.2 meter_name customer.id
            event.value event.timestamp
          match r2.1 with
          | .error e => (.error e, r2.2)
          | .ok identifier =>
              let r3 := increment_usage_counter env r2.2 event.workspace_id
                event.event_type.value event.value
              match r3.1 with
              | .error e => (.error e, r3.2)
              | .ok new_total =>
                  (.ok { status := "recorded"
                         meter_event_id := identifier
                         current_total := new_total }, r3.2)

/-- A usage message body as the async consumer reads it via dict.get:
none models an absent key. -/
structure UsageMessage where
  workspace_id : Option String := none
  event_type : Option String := none
  value : Option ℚ := none
  deriving DecidableEq, Repr

/-- consumers/usage_events.py EVENT_TYPE_TO_METER (string-keyed). -/
def EVENT_TYPE_TO_METER_CONSUMER (event_type : String) : Option String :=
  if event_type = UsageEventType.ai_credits.value then
    some settings.STRIPE_METER_AI_CREDITS
  else if event_type = UsageEventType.whatsapp_message.value then
    some settings.STRIPE_METER_WHATSAPP_MESSAGES
  else if event_type = UsageEventType.email_send.value then
    some settings.STRIPE_METER_EMAIL_SENDS
  else none

/-- consumers/usage_events.handle_usage_event: the async path.  Malformed
messages and missing customers are dropped (ok), a provider-push failure
is re-raised, a counter-increment failure is swallowed. -/
def handle_usage_event (env : Env) (w : World) (event : UsageMessage) :
    Except String Unit × World :=
  let workspace_id := event.workspace_id
  let event_type := event.event_type
  let value := event.value.getD 0
  if !pyTruthy workspace_id || !pyTruthy event_type || decide (value ≤ 0) then
    (.ok (), w)
  else
    let ws := workspace_id.getD ""
    let et := event_type.getD ""
    let r1 := stripe_get_customer_by_workspace env w ws
    match r1.1 with
    | none => (.ok (), r1.2)
    | some customer =>
        match EVENT_TYPE_TO_METER_CONSUMER et with
        | none => (.ok (), r1.2)
        | some meter_name =>
            let r2 := stripe_create_meter_event env r1.2 meter_name customer.id value none
            match r2.1 with
            | .error e => (.error e, r2.2)
            | .ok _ =>
                let r3 := increment_usage_counter env r2.2 ws et value
                (.ok (), r3.2)

/-- The customer field of a subscription event object: absent, a bare id
string, or an expanded object carrying its metadata dict. -/
inductive CustomerField where
  | absent
  | idString (id : String)
  | object (metadata : List (String × String))
  deriving DecidableEq, Repr

/-- The fields of a customer.subscription.* event data object that
consumers/stripe_events.py reads.  previous_attributes holds the keys
present in the event's previous_attributes dict. -/
structure SubscriptionObject where
  id : Option String := none
  metadata : List (String × String) := []
  customer : CustomerField := .absent
  previous_attributes : List String := []
  status : Option String := none
  deriving DecidableEq, Repr

/-- consumers/stripe_events._extract_workspace_id: subscription metadata
first, falling back to the expanded customer object's metadata (a bare
customer id string is not a dict and is skipped). -/
def extract_workspace_id (data : SubscriptionObject) : Option String :=
  let workspace_id := assocGet data.metadata "workspace_id"
  if !pyTruthy workspace_id then
    match data.customer with
    | .object customer_metadata => assocGet customer_metadata "workspace_id"
    | .absent => none
    | .idString _ => workspace_id
  else workspace_id

/-- consumers/stripe_events._handle_subscription_updated: invalidate the
cache; on a current_period_start diff, reset every UsageEventType counter. -/
def handle_subscription_updated (w : World) (data : SubscriptionObject) : World :=
  let workspace_id := extract_workspace_id data
  if !pyTruthy workspace_id then w
  else
    let ws := workspace_id.getD ""
    let w1 := invalidate_entitlements w ws
    if data.previous_attributes.contains "current_period_start" then
      UsageEventType.all.foldl (fun acc meter => reset_usage_counter acc ws meter.value) w1
    else w1

/-- The razorpay payment entity (metadata.payload.payment.entity); any
missing nesting level reads as an empty dict, i.e. the defaults here. -/
structure RazorpayPaymentEntity where
  id : Option String := none
  notes : List (String × String) := []
  deriving DecidableEq, Repr

/-- A payment event message as consumers/payment_events.py reads it. -/
structure PaymentEventMsg where
  source : Option String := none
  event_type : Option String := none
  workspace_id : Option String := none
  amount : Option ℚ := none
  stripe_invoice_id : Option String := none
  bank_reference : Option String := none
  payment_entity : RazorpayPaymentEntity := {}
  deriving DecidableEq, Repr

/-- consumers/payment_events._handle_razorpay_event. -/
def handle_razorpay_event (env : Env) (w : World) (event : PaymentEventMsg) :
    Except String Unit × World :=
  let event_type := event.event_type.getD ""
  if event_type = "payment.captured" then
    let notes := event.payment_entity.notes
    let stripe_invoice_id := assocGet notes "stripe_invoice_id"
    let workspace_id := assocGet notes "workspace_id"
    if !pyTruthy stripe_invoice_id then (.ok (), w)
    else
      let r1 := stripe_mark_invoice_paid_out_of_band env w (stripe_invoice_id.getD "")
      match r1.1 with
      | .error e => (.error e, r1.2)
      | .ok _ =>
          if pyTruthy workspace_id then
            (.ok (), invalidate_entitlements r1.2 (workspace_id.getD ""))
          else (.ok (), r1.2)
  else (.ok (), w)

/-- consumers/payment_events._handle_manual_reconciliation. -/
def handle_manual_reconciliation (env : Env) (w : World) (event : PaymentEventMsg) :
    Except String Unit × World :=
  let stripe_invoice_id := event.stripe_invoice_id
  let workspace_id := event.workspace_id
  if !pyTruthy stripe_invoice_id then (.ok (), w)
  else
    let r1 := stripe_mark_invoice_paid_out_of_band env w (stripe_invoice_id.getD "")
    match r1.1 with
    | .error e => (.error e, r1.2)
    | .ok _ =>
        if pyTruthy workspace_id then
          (.ok (), invalidate_entitlements r1.2 (workspace_id.getD ""))
        else (.ok (), r1.2)

/-- consumers/payment_events.handle_payment_event: dispatch on source;
the surrounding try block logs and re-raises, leaving the result as-is. -/
def handle_payment_event (env : Env) (w : World) (event : PaymentEventMsg) :
    Except String Unit × World :=
  let source := event.source.getD "unknown"
  if source = "razorpay" then handle_razorpay_event env w event
  else if source = "manual_reconciliation" then handle_manual_reconciliation env w event
  else if source = "zoho_books" then (.ok (), w)
  else (.ok (), w)

/-- A message body after json.loads: either the payload directly, or an
SNS notification envelope whose inner Message is parsed one more time. -/
inductive ParsedBody (β : Type) where
  | plain (body : β)
  | snsWrapped (inner : Except String β)
  deriving Repr

/-- The body a handler is dispatched with: outer parse then the one-level
SNS unwrap of sqs_client.consume_loop. -/
def unwrapBody {β : Type} (parsed : Except String (ParsedBody β)) : Except String β :=
  match parsed with
  | .error e => .error e
  | .ok (.plain b) => .ok b
  | .ok (.snsWrapped inner) => inner

/-- One received SQS message: its receipt handle and the parse outcome of
its Body. -/
structure SqsMsg (β : Type) where
  receipt_handle : String
  body : Except String (ParsedBody β)

/-- The per-batch message loop of sqs_client.consume_loop: parse, unwrap,
dispatch, delete on success; any exception leaves the message undeleted
(it becomes visible again after the visibility timeout).  Returns the
final world and the receipt handles deleted, in order. -/
def consume_batch {β : Type} (handler : World → β → Except String Unit × World)
    (w : World) (msgs : List (SqsMsg β)) : World × List String :=
  match msgs with
  | [] => (w, [])
  | msg :: rest =>
      match unwrapBody msg.body with
      | .error _ => consume_batch handler w rest
      | .ok body =>
          let r := handler w body
          match r.1 with
          | .ok _ =>
              let rec1 := consume_batch handler r.2 rest
              (rec1.1, msg.receipt_handle :: rec1.2)
          | .error _ => consume_batch handler r.2 rest

/-! ## General lemmas about the store operations -/

theorem assocGet_assocSet_self {α : Type} (l : List (String × α)) (k : String) (v : α) :
    assocGet (assocSet l k v) k = some v := by
  induction l with
  | nil => simp [assocGet, assocSet]
  | cons p t ih =>
      obtain ⟨k2, v2⟩ := p
      by_cases hk : k2 = k
      · simp [assocSet, assocGet, hk]
      · simp [assocSet, assocGet, hk, ih]

theorem assocGet_assocSet_ne {α : Type} (l : List (String × α)) {k k2 : String}
    (h : k ≠ k2) (v : α) : assocGet (assocSet l k v) k2 = assocGet l k2 := by
  induction l with
  | nil => simp [assocGet, assocSet, h]
  | cons p t ih =>
      obtain ⟨k3, v3⟩ := p
      by_cases hk : k3 = k
      · subst hk
        simp [assocSet, assocGet, h]
      · simp [assocSet, assocGet, hk, ih]

theorem assocGet_assocDelete_self {α : Type} (l : List (String × α)) (k : String) :
    assocGet (assocDelete l k) k = none := by
  induction l with
  | nil => simp [assocGet, assocDelete]
  | cons p t ih =>
      obtain ⟨k2, v2⟩ := p
      by_cases hk : k2 = k
      · simp [assocDelete, hk, ih]
      · simp [assocDelete, assocGet, hk, ih]

theorem string_append_left_cancel {a b c : String} (h : a ++ b = a ++ c) : b = c := by
  have hd : a.data ++ b.data = a.data ++ c.data := by
    have hq := congrArg String.data h
    simpa [String.data_append] using hq
  have hbc : b.data = c.data := List.append_cancel_left hd
  cases b
  cases c
  exact congrArg String.mk hbc

theorem USAGE_COUNTER_KEY_meter_inj (ws : String) {m1 m2 : String}
    (h : USAGE_COUNTER_KEY ws m1 = USAGE_COUNTER_KEY ws m2) : m1 = m2 := by
  exact string_append_left_cancel h

/-! ## Lemmas about the entitlement fetch and get -/

theorem fetch_entitlements_state (env : Env) (w : World) (workspace_id : String) :
    (fetch_entitlements_from_stripe env w workspace_id).2.counters = w.counters ∧
    (fetch_entitlements_from_stripe env w workspace_id).2.cache = w.cache ∧
    (fetch_entitlements_from_stripe env w workspace_id).1.cached = false ∧
    StripeCall.getCustomerByWorkspace workspace_id
      ∈ (fetch_entitlements_from_stripe env w workspace_id).2.calls := by
  simp only [fetch_entitlements_from_stripe, stripe_get_customer_by_workspace,
    stripe_get_active_subscription]
  cases h1 : env.get_customer_by_workspace workspace_id with
  | none => simp
  | some c =>
      cases h2 : env.get_active_subscription c.id with
      | none => simp [h2]
      | some s => simp [h2]

theorem fetch_no_customer (env : Env) (w : World) (workspace_id : String)
    (h : env.get_customer_by_workspace workspace_id = none) :
    fetch_entitlements_from_stripe env w workspace_id =
      ({ workspace_id := workspace_id
         has_active_subscription := false
         plan_tier := some .free
         subscription_status := none
         features := PLAN_FEATURES .free
         is_quota_exceeded := false },
       { w with calls := .getCustomerByWorkspace workspace_id :: w.calls }) := by
  simp [fetch_entitlements_from_stripe, stripe_get_customer_by_workspace, h]

theorem get_entitlements_rebuild (env : Env) (w : World) (workspace_id : String)
    (refresh : Bool) (ttl : Option Nat) (now : Nat)
    (h : refresh = true ∨ assocGet w.cache (ENTITLEMENT_KEY workspace_id) = none) :
    get_entitlements env w workspace_id refresh ttl now =
      ({ (fetch_entitlements_from_stripe env w workspace_id).1 with cached_at := some now },
       redis_set_cached_json (fetch_entitlements_from_stripe env w workspace_id).2
         (ENTITLEMENT_KEY workspace_id)
         { (fetch_entitlements_from_stripe env w workspace_id).1 with cached_at := some now }
         (entitlement_cache_ttl ttl)) := by
  rcases h with h | h
  · subst h
    simp [get_entitlements]
  · cases refresh with
    | false => simp [get_entitlements, redis_get_cached_json, h]
    | true => simp [get_entitlements]

theorem get_entitlements_counters (env : Env) (w : World) (workspace_id : String)
    (refresh : Bool) (ttl : Option Nat) (now : Nat) :
    (get_entitlements env w workspace_id refresh ttl now).2.counters = w.counters := by
  have hf := (fetch_entitlements_state env w workspace_id).1
  cases refresh with
  | false =>
      simp only [get_entitlements, redis_get_cached_json]
      cases hc : assocGet w.cache (ENTITLEMENT_KEY workspace_id) with
      | none => simpa [redis_set_cached_json] using hf
      | some e => simp
  | true => simpa [get_entitlements, redis_set_cached_json] using hf

theorem get_entitlements_no_customer (env : Env) (w : World) (workspace_id : String)
    (refresh : Bool) (ttl : Option Nat) (now : Nat)
    (hcust : env.get_customer_by_workspace workspace_id = none)
    (hmiss : refresh = true ∨ assocGet w.cache (ENTITLEMENT_KEY workspace_id) = none) :
    (get_entitlements env w workspace_id refresh ttl now).1 =
      { workspace_id := workspace_id
        has_active_subscription := false
        plan_tier := some .free
        subscription_status := none
        features := PLAN_FEATURES .free
        is_quota_exceeded := false
        cached := false
        cached_at := some now } := by
  rw [get_entitlements_rebuild env w workspace_id refresh ttl now hmiss]
  rw [fetch_no_customer env w workspace_id hcust]

/-! ## Claim theorems -/

/-- C1: get_entitlements returns a live cache entry with cached=true (and no
provider call, state unchanged) when refresh is false; on refresh=true or a
cache miss it rebuilds from the provider, stamps cached_at with the current
time, writes the snapshot back with TTL = the ttl override or the configured
default (overwriting any entry under the key), and returns it with
cached=false; cached_at is stamped only on the rebuild path. -/
theorem C1_entitlement_get_cache_protocol (env : Env) (w : World)
    (workspace_id : String) (refresh : Bool) (ttl : Option Nat) (now : Nat) :
    (∀ entry, refresh = false →
        assocGet w.cache (ENTITLEMENT_KEY workspace_id) = some entry →
        get_entitlements env w workspace_id refresh ttl now
          = ({ entry.value with cached := true }, w)) ∧
    ((refresh = true ∨ assocGet w.cache (ENTITLEMENT_KEY workspace_id) = none) →
        (get_entitlements env w workspace_id refresh ttl now).1.cached = false ∧
        (get_entitlements env w workspace_id refresh ttl now).1.cached_at = some now ∧
        assocGet (get_entitlements env w workspace_id refresh ttl now).2.cache
            (ENTITLEMENT_KEY workspace_id)
          = some { value := (get_entitlements env w workspace_id refresh ttl now).1,
                   ttl := entitlement_cache_ttl ttl } ∧
        StripeCall.getCustomerByWorkspace workspace_id
          ∈ (get_entitlements env w workspace_id refresh ttl now).2.calls) ∧
    (ttl = none → entitlement_cache_ttl ttl = settings.ENTITLEMENT_CACHE_TTL) ∧
    (∀ t, ttl = some t → t ≠ 0 → entitlement_cache_ttl ttl = t) := by
  refine ⟨?_, ?_, ?_, ?_⟩
  · intro entry hr hc
    subst hr
    simp [get_entitlements, redis_get_cached_json, hc]
  · intro h
    have hf := fetch_entitlements_state env w workspace_id
    rw [get_entitlements_rebuild env w workspace_id refresh ttl now h]
    refine ⟨by simpa using hf.2.2.1, rfl, ?_, ?_⟩
    · simp [redis_set_cached_json, assocGet_assocSet_self]
    · simpa [redis_set_cached_json] using hf.2.2.2
  · intro h
    subst h
    rfl
  · intro t h ht
    subst h
    simp [entitlement_cache_ttl, ht]

/-- A provider oracle with no customers, used to instantiate theorems. -/
def envNoCustomer : Env :=
  { get_customer_by_workspace := fun _ => none
    get_active_subscription := fun _ => none
    create_meter_event_result := fun _ _ _ => .ok none
    mark_invoice_paid_result := fun _ => .ok () }

/-- A concrete snapshot and a world whose cache holds it, used to
instantiate the cache-hit path. -/
def entSnapA : EntitlementResponse :=
  { workspace_id := "ws_1", has_active_subscription := true }

/-- A world with entSnapA cached for ws_1. -/
def wHitA : World :=
  { cache := [(ENTITLEMENT_KEY "ws_1", { value := entSnapA, ttl := 120 })] }

/-- Witness for C1: a concrete cache hit is returned unchanged with
cached=true, and a concrete rebuild stamps cached_at. -/
theorem C1_entitlement_get_cache_protocol_witness :
    get_entitlements envNoCustomer wHitA "ws_1" false none 5
      = ({ entSnapA with cached := true }, wHitA) ∧
    (get_entitlements envNoCustomer {} "ws_1" false none 5).1.cached_at = some 5 := by
  constructor
  · exact (C1_entitlement_get_cache_protocol envNoCustomer wHitA "ws_1" false none 5).1
      { value := entSnapA, ttl := 120 } rfl (by simp [wHitA, assocGet])
  · exact ((C1_entitlement_get_cache_protocol envNoCustomer {} "ws_1" false none 5).2.1
      (Or.inr rfl)).2.1

/-- C3: a workspace with no provider customer gets a synthesized free-tier
snapshot (has_active_subscription=false, plan_tier=free, the free feature
list, is_quota_exceeded=false, cached=false) instead of an error, on any
call of get that reaches the provider (refresh or cache miss). -/
theorem C3_no_customer_free_snapshot (env : Env) (w : World) (workspace_id : String)
    (refresh : Bool) (ttl : Option Nat) (now : Nat)
    (hcust : env.get_customer_by_workspace workspace_id = none)
    (hmiss : refresh = true ∨ assocGet w.cache (ENTITLEMENT_KEY workspace_id) = none) :
    (get_entitlements env w workspace_id refresh ttl now).1 =
      { workspace_id := workspace_id
        has_active_subscription := false
        plan_tier := some .free
        subscription_status := none
        features := PLAN_FEATURES .free
        is_quota_exceeded := false
        cached := false
        cached_at := some now } :=
  get_entitlements_no_customer env w workspace_id refresh ttl now hcust hmiss

/-- Witness for C3: the concrete free-tier snapshot for ws_1. -/
theorem C3_no_customer_free_snapshot_witness :
    (get_entitlements envNoCustomer {} "ws_1" false none 0).1 =
      { workspace_id := "ws_1"
        has_active_subscription := false
        plan_tier := some .free
        subscription_status := none
        features := PLAN_FEATURES .free
        is_quota_exceeded := false
        cached := false
        cached_at := some 0 } :=
  C3_no_customer_free_snapshot envNoCustomer {} "ws_1" false none 0 rfl (Or.inr rfl)

/-- C10: check_feature_access is true exactly when the feature is listed and
has_active_subscription is true; hence every feature check is false on a
snapshot without an active subscription, in particular on the synthesized
free-tier snapshot of a workspace with no provider customer, even for
features in the free tier's list. -/
theorem C10_feature_access_requires_active_subscription (env : Env) (w : World)
    (workspace_id feature : String) (now : Nat) :
    ((check_feature_access env w workspace_id feature now).1 = true ↔
      ((get_entitlements env w workspace_id false none now).1.features.contains feature
          = true ∧
       (get_entitlements env w workspace_id false none now).1.has_active_subscription
          = true)) ∧
    ((get_entitlements env w workspace_id false none now).1.has_active_subscription
        = false →
      (check_feature_access env w workspace_id feature now).1 = false) ∧
    (env.get_customer_by_workspace workspace_id = none →
      assocGet w.cache (ENTITLEMENT_KEY workspace_id) = none →
      (check_feature_access env w workspace_id feature now).1 = false) := by
  refine ⟨?_, ?_, ?_⟩
  · simp [check_feature_access]
  · intro h
    simp [check_feature_access, h]
  · intro h1 h2
    have hfree :=
      get_entitlements_no_customer env w workspace_id false none now h1 (Or.inr h2)
    simp [check_feature_access, hfree]

/-- Witness for C10: with no provider customer, even the free-tier feature
ai_chat is denied for ws_1. -/
theorem C10_feature_access_requires_active_subscription_witness :
    (check_feature_access envNoCustomer {} "ws_1" "ai_chat" 0).1 = false :=
  (C10_feature_access_requires_active_subscription envNoCustomer {} "ws_1" "ai_chat" 0).2.2
    rfl rfl

theorem redis_get_float_counters_eq (w1 w2 : World) (h : w1.counters = w2.counters)
    (key : String) : redis_get_float w1 key = redis_get_float w2 key := by
  simp [redis_get_float, h]

/-- C2: check_usage_limit returns false when the snapshot has no usage entry
for the meter or its limit is None, and otherwise returns true exactly when
the live Redis counter value has reached the limit (the snapshot's stored
used value plays no role in the comparison). -/
theorem C2_usage_limit_check (env : Env) (w : World) (workspace_id meter : String)
    (now : Nat) :
    (assocGet (get_entitlements env w workspace_id false none now).1.usage meter = none →
      (check_usage_limit env w workspace_id meter now).1 = false) ∧
    (∀ u, assocGet (get_entitlements env w workspace_id false none now).1.usage meter
        = some u → u.limit = none →
      (check_usage_limit env w workspace_id meter now).1 = false) ∧
    (∀ u L, assocGet (get_entitlements env w workspace_id false none now).1.usage meter
        = some u → u.limit = some L →
      ((check_usage_limit env w workspace_id meter now).1 = true ↔
        L ≤ redis_get_float w (USAGE_COUNTER_KEY workspace_id meter))) := by
  refine ⟨?_, ?_, ?_⟩
  · intro h
    simp [check_usage_limit, h]
  · intro u hu hl
    simp [check_usage_limit, hu, hl]
  · intro u L hu hl
    have hc := get_entitlements_counters env w workspace_id false none now
    have hg := redis_get_float_counters_eq
      (get_entitlements env w workspace_id false none now).2 w hc
      (USAGE_COUNTER_KEY workspace_id meter)
    simp [check_usage_limit, hu, hl, hg]

/-- An oracle with a customer for ws_2 whose subscription has an ai_credits
limit of 5, used to instantiate theorems. -/
def envSubB : Env :=
  { get_customer_by_workspace := fun ws =>
      if ws = "ws_2" then some { id := "cus_2" } else none
    get_active_subscription := fun _ =>
      some { product :=
        { metadata_limit := fun m => if m = "ai_credits" then some 5 else none } }
    create_meter_event_result := fun _ _ _ => .ok (some "evt_1")
    mark_invoice_paid_result := fun _ => .ok () }

/-- A world whose ws_2 ai_credits counter reads 7. -/
def wCtrB : World :=
  { counters := [(USAGE_COUNTER_KEY "ws_2" "ai_credits", { value := 7 })] }

/-- Witness for C2: counter 7 against limit 5 is exceeded; a meter with no
configured limit is never exceeded. -/
theorem C2_usage_limit_check_witness :
    (check_usage_limit envSubB wCtrB "ws_2" "ai_credits" 0).1 = true ∧
    (check_usage_limit envSubB wCtrB "ws_2" "whatsapp_messages" 0).1 = false := by
  constructor
  · exact ((C2_usage_limit_check envSubB wCtrB "ws_2" "ai_credits" 0).2.2
      { used := 7, limit := some 5, percentage := some (7 / 5 * 100) } 5 rfl rfl).mpr
      (by norm_num [wCtrB, redis_get_float, assocGet])
  · exact (C2_usage_limit_check envSubB wCtrB "ws_2" "whatsapp_messages" 0).1 (by decide)

theorem redis_increment_float_fst (w : World) (key : String) (amount : ℚ) :
    (redis_increment_float w key amount).1 = redis_get_float w key + amount := by
  unfold redis_increment_float redis_get_float
  cases h : assocGet w.counters key with
  | none => simp
  | some e => simp

theorem redis_increment_float_get_self (w : World) (key : String) (amount : ℚ) :
    redis_get_float (redis_increment_float w key amount).2 key
      = redis_get_float w key + amount := by
  unfold redis_increment_float
  cases h : assocGet w.counters key with
  | none => simp [redis_get_float, h, assocGet_assocSet_self]
  | some e => simp [redis_get_float, h, assocGet_assocSet_self]

theorem redis_increment_float_calls (w : World) (key : String) (amount : ℚ) :
    (redis_increment_float w key amount).2.calls = w.calls := by
  unfold redis_increment_float
  cases h : assocGet w.counters key with
  | none => simp
  | some e => simp

theorem redis_get_float_calls_irrel (w : World) (calls : List StripeCall) (key : String) :
    redis_get_float { w with calls := calls } key = redis_get_float w key := rfl

/-- C4: the synchronous record path resolves the customer (not-found raises
with no provider push and no counter change), pushes the meter event, then
increments the counter and returns the post-increment total; a provider-push
failure propagates with the counter untouched. -/
theorem C4_record_usage_event (env : Env) (w : World) (event : UsageEventRequest) :
    (env.get_customer_by_workspace event.workspace_id = none →
      (record_usage_event env w event).1
          = .error ("No Stripe customer found for workspace " ++ event.workspace_id) ∧
      (record_usage_event env w event).2.counters = w.counters ∧
      (record_usage_event env w event).2.calls
          = StripeCall.getCustomerByWorkspace event.workspace_id :: w.calls) ∧
    (∀ c meter_name, env.get_customer_by_workspace event.workspace_id = some c →
      EVENT_TYPE_TO_METER event.event_type = some meter_name →
      (∀ e, env.create_meter_event_result meter_name c.id event.value = .error e →
        (record_usage_event env w event).1 = .error e ∧
        (record_usage_event env w event).2.counters = w.counters) ∧
      (∀ id, env.create_meter_event_result meter_name c.id event.value = .ok id →
        env.redis_increment_fails = false →
        (record_usage_event env w event).1
            = .ok { status := "recorded"
                    meter_event_id := id
                    current_total :=
                      redis_get_float w
                          (USAGE_COUNTER_KEY event.workspace_id event.event_type.value)
                        + event.value } ∧
        redis_get_float (record_usage_event env w event).2
            (USAGE_COUNTER_KEY event.workspace_id event.event_type.value)
          = redis_get_float w
              (USAGE_COUNTER_KEY event.workspace_id event.event_type.value)
            + event.value ∧
        (record_usage_event env w event).2.calls
          = StripeCall.createMeterEvent meter_name c.id event.value event.timestamp
            :: StripeCall.getCustomerByWorkspace event.workspace_id :: w.calls)) := by
  refine ⟨?_, ?_⟩
  · intro h
    simp [record_usage_event, stripe_get_customer_by_workspace, h]
  · intro c meter_name hc hm
    constructor
    · intro e he
      simp [record_usage_event, stripe_get_customer_by_workspace, hc, hm,
        stripe_create_meter_event, he]
    · intro id hok hred
      simp only [record_usage_event, stripe_get_customer_by_workspace, hc, hm,
        stripe_create_meter_event, hok, increment_usage_counter, hred,
        Bool.false_eq_true, if_false]
      simp [redis_increment_float_fst, redis_increment_float_get_self,
        redis_increment_float_calls, redis_get_float_calls_irrel]

/-- Witness for C4 (end-to-end scenario B): recording ai_credits value 3 for
ws_2 pushes the meter event and returns total 3. -/
theorem C4_record_usage_event_witness :
    (record_usage_event envSubB {}
        { workspace_id := "ws_2", event_type := .ai_credits, value := 3 }).1
      = .ok { status := "recorded", meter_event_id := some "evt_1", current_total := 3 } := by
  have h := ((C4_record_usage_event envSubB {}
    { workspace_id := "ws_2", event_type := .ai_credits, value := 3 }).2
    { id := "cus_2" } "ai_credits" (by decide) rfl).2 (some "evt_1") rfl rfl
  rw [h.1]
  simp [redis_get_float, assocGet]

/-- C5: the async usage handler swallows a counter-increment failure after a
successful provider push (completing normally, so the message is acked), but
re-raises a provider-push failure (so the message is redelivered). -/
theorem C5_async_usage_failure_policy (env : Env) (w : World) (event : UsageMessage)
    (c : StripeCustomer) (meter_name : String)
    (hws : pyTruthy event.workspace_id = true)
    (het : pyTruthy event.event_type = true)
    (hv : 0 < event.value.getD 0)
    (hc : env.get_customer_by_workspace (event.workspace_id.getD "") = some c)
    (hm : EVENT_TYPE_TO_METER_CONSUMER (event.event_type.getD "") = some meter_name) :
    (∀ id, env.create_meter_event_result meter_name c.id (event.value.getD 0) = .ok id →
      env.redis_increment_fails = true →
      (handle_usage_event env w event).1 = .ok () ∧
      (handle_usage_event env w event).2.counters = w.counters) ∧
    (∀ e, env.create_meter_event_result meter_name c.id (event.value.getD 0) = .error e →
      (handle_usage_event env w event).1 = .error e) := by
  have hvle : ¬ event.value.getD 0 ≤ 0 := not_le.mpr hv
  constructor
  · intro id hok hred
    simp [handle_usage_event, hws, het, hvle, stripe_get_customer_by_workspace, hc, hm,
      stripe_create_meter_event, hok, increment_usage_counter, hred]
  · intro e he
    simp [handle_usage_event, hws, het, hvle, stripe_get_customer_by_workspace, hc, hm,
      stripe_create_meter_event, he]

/-- envSubB with a failing Redis increment. -/
def envIncFail : Env := { envSubB with redis_increment_fails := true }

/-- envSubB with a failing provider meter push. -/
def envPushFail : Env :=
  { envSubB with create_meter_event_result := fun _ _ _ => .error "stripe down" }

/-- Witness for C5: concrete swallowed counter failure and concrete
re-raised push failure. -/
theorem C5_async_usage_failure_policy_witness :
    ((handle_usage_event envIncFail {}
        { workspace_id := some "ws_2", event_type := some "ai_credits", value := some 2 }).1
      = .ok ()) ∧
    ((handle_usage_event envPushFail {}
        { workspace_id := some "ws_2", event_type := some "ai_credits", value := some 2 }).1
      = .error "stripe down") := by
  constructor
  · exact ((C5_async_usage_failure_policy envIncFail {}
      { workspace_id := some "ws_2", event_type := some "ai_credits", value := some 2 }
      { id := "cus_2" } "ai_credits" (by decide) (by decide) (by decide) (by decide)
      (by decide)).1 (some "evt_1") rfl rfl).1
  · exact (C5_async_usage_failure_policy envPushFail {}
      { workspace_id := some "ws_2", event_type := some "ai_credits", value := some 2 }
      { id := "cus_2" } "ai_credits" (by decide) (by decide) (by decide) (by decide)
      (by decide)).2 "stripe down" rfl

/-- C6: a malformed usage message (missing workspace id, missing event type,
or non-positive value) is dropped: the handler returns normally and the
world (provider calls and counters included) is completely unchanged. -/
theorem C6_malformed_usage_event_dropped (env : Env) (w : World) (event : UsageMessage)
    (h : pyTruthy event.workspace_id = false ∨ pyTruthy event.event_type = false ∨
      event.value.getD 0 ≤ 0) :
    handle_usage_event env w event = (.ok (), w) := by
  rcases h with h | h | h <;> simp [handle_usage_event, h]

/-- Witness for C6: a usage message with value 0 is dropped unchanged. -/
theorem C6_malformed_usage_event_dropped_witness :
    handle_usage_event envSubB {}
        { workspace_id := some "ws_2", event_type := some "ai_credits", value := some 0 }
      = (.ok (), {}) :=
  C6_malformed_usage_event_dropped envSubB {}
    { workspace_id := some "ws_2", event_type := some "ai_credits", value := some 0 }
    (Or.inr (Or.inr (by decide)))

theorem usage_key_ne (ws : String) {m1 m2 : String} (h : m1 ≠ m2) :
    USAGE_COUNTER_KEY ws m1 ≠ USAGE_COUNTER_KEY ws m2 :=
  fun he => h (USAGE_COUNTER_KEY_meter_inj ws he)

/-- C7: a subscription-updated event with a resolvable workspace id deletes
that workspace's entitlement cache entry, and when current_period_start is in
the previous-attributes diff it additionally resets every tracked meter's
counter to 0 with the 35-day TTL. -/
theorem C7_subscription_updated_invalidate_and_rollover (w : World)
    (data : SubscriptionObject) (ws : String)
    (hws : extract_workspace_id data = some ws) (hne : ws ≠ "") :
    assocGet (handle_subscription_updated w data).cache (ENTITLEMENT_KEY ws) = none ∧
    (data.previous_attributes.contains "current_period_start" = true →
      ∀ meter ∈ UsageEventType.all,
        assocGet (handle_subscription_updated w data).counters
            (USAGE_COUNTER_KEY ws meter.value)
          = some { value := 0, ttl := some (86400 * 35) }) := by
  have htru : pyTruthy (some ws) = true := by
    simp [pyTruthy, hne]
  cases hro : data.previous_attributes.contains "current_period_start" with
  | false =>
      have hro2 : "current_period_start" ∉ data.previous_attributes := by
        simpa using hro
      constructor
      · simp [handle_subscription_updated, hws, htru, hro2, invalidate_entitlements,
          redis_delete_cached, assocGet_assocDelete_self]
      · intro hc
        exact absurd hc (by simp [hro])
  | true =>
      have hro2 : "current_period_start" ∈ data.previous_attributes := by
        simpa using hro
      have hexp : handle_subscription_updated w data =
          reset_usage_counter (reset_usage_counter (reset_usage_counter
            (reset_usage_counter (invalidate_entitlements w ws) ws "ai_credits")
            ws "whatsapp_message") ws "email_send") ws "sms_send" := by
        simp [handle_subscription_updated, hws, htru, hro2, UsageEventType.all,
          UsageEventType.value]
      constructor
      · simp [hexp, reset_usage_counter, redis_set_with_ttl, invalidate_entitlements,
          redis_delete_cached, assocGet_assocDelete_self]
      · intro _ meter hm
        have hcn : (handle_subscription_updated w data).counters =
            assocSet (assocSet (assocSet (assocSet
              (invalidate_entitlements w ws).counters
              (USAGE_COUNTER_KEY ws "ai_credits") { value := 0, ttl := some (86400 * 35) })
              (USAGE_COUNTER_KEY ws "whatsapp_message") { value := 0, ttl := some (86400 * 35) })
              (USAGE_COUNTER_KEY ws "email_send") { value := 0, ttl := some (86400 * 35) })
              (USAGE_COUNTER_KEY ws "sms_send") { value := 0, ttl := some (86400 * 35) } := by
          simp [hexp, reset_usage_counter, redis_set_with_ttl]
        rw [hcn]
        rcases (by simpa [UsageEventType.all] using hm :
            meter = UsageEventType.ai_credits ∨ meter = UsageEventType.whatsapp_message ∨
            meter = UsageEventType.email_send ∨ meter = UsageEventType.sms_send) with
          h | h | h | h <;> subst h <;> simp only [UsageEventType.value]
        · rw [assocGet_assocSet_ne _ (usage_key_ne ws (by decide)),
            assocGet_assocSet_ne _ (usage_key_ne ws (by decide)),
            assocGet_assocSet_ne _ (usage_key_ne ws (by decide)),
            assocGet_assocSet_self]
        · rw [assocGet_assocSet_ne _ (usage_key_ne ws (by decide)),
            assocGet_assocSet_ne _ (usage_key_ne ws (by decide)),
            assocGet_assocSet_self]
        · rw [assocGet_assocSet_ne _ (usage_key_ne ws (by decide)),
            assocGet_assocSet_self]
        · rw [assocGet_assocSet_self]

/-- Witness for C7: a concrete period-rollover event for ws_3 clears the
cache entry and resets the ai_credits counter. -/
theorem C7_subscription_updated_invalidate_and_rollover_witness :
    assocGet (handle_subscription_updated
        { cache := [(ENTITLEMENT_KEY "ws_3", { value := entSnapA, ttl := 120 })]
          counters := [(USAGE_COUNTER_KEY "ws_3" "ai_credits", { value := 9 })] }
        { metadata := [("workspace_id", "ws_3")]
          previous_attributes := ["current_period_start"] }).cache
      (ENTITLEMENT_KEY "ws_3") = none ∧
    assocGet (handle_subscription_updated
        { cache := [(ENTITLEMENT_KEY "ws_3", { value := entSnapA, ttl := 120 })]
          counters := [(USAGE_COUNTER_KEY "ws_3" "ai_credits", { value := 9 })] }
        { metadata := [("workspace_id", "ws_3")]
          previous_attributes := ["current_period_start"] }).counters
      (USAGE_COUNTER_KEY "ws_3" "ai_credits")
      = some { value := 0, ttl := some (86400 * 35) } := by
  have h := C7_subscription_updated_invalidate_and_rollover
    { cache := [(ENTITLEMENT_KEY "ws_3", { value := entSnapA, ttl := 120 })]
      counters := [(USAGE_COUNTER_KEY "ws_3" "ai_credits", { value := 9 })] }
    { metadata := [("workspace_id", "ws_3")]
      previous_attributes := ["current_period_start"] }
    "ws_3" (by decide) (by decide)
  exact ⟨h.1, h.2 (by decide) UsageEventType.ai_credits (by decide)⟩

theorem consume_batch_cons {β : Type}
    (handler : World → β → Except String Unit × World) (w : World)
    (msg : SqsMsg β) (rest : List (SqsMsg β)) :
    consume_batch handler w (msg :: rest) =
      match unwrapBody msg.body with
      | .error _ => consume_batch handler w rest
      | .ok body =>
          match (handler w body).1 with
          | .ok _ =>
              ((consume_batch handler (handler w body).2 rest).1,
               msg.receipt_handle :: (consume_batch handler (handler w body).2 rest).2)
          | .error _ => consume_batch handler (handler w body).2 rest := rfl

theorem consume_batch_deletes_sublist {β : Type}
    (handler : World → β → Except String Unit × World) (w : World)
    (msgs : List (SqsMsg β)) :
    ((consume_batch handler w msgs).2).Sublist (msgs.map SqsMsg.receipt_handle) := by
  induction msgs generalizing w with
  | nil => simp [consume_batch]
  | cons msg rest ih =>
      rw [consume_batch_cons, List.map_cons]
      split
      · exact (ih w).cons _
      · split
        · exact (ih _).cons₂ _
        · exact (ih _).cons _

/-- C8: in the consumer loop, a message's receipt handle is deleted exactly
when its dispatched handler completes without raising; a raising handler
leaves the message in place, only received messages are ever deleted, and no
handle is deleted twice. -/
theorem C8_consume_loop_delete_iff {β : Type}
    (handler : World → β → Except String Unit × World) (w : World)
    (msg : SqsMsg β) (rest : List (SqsMsg β))
    (hnd : ((msg :: rest).map SqsMsg.receipt_handle).Nodup) :
    ((consume_batch handler w (msg :: rest)).2).Sublist
        ((msg :: rest).map SqsMsg.receipt_handle) ∧
    (msg.receipt_handle ∈ (consume_batch handler w (msg :: rest)).2 ↔
      ∃ body, unwrapBody msg.body = .ok body ∧ (handler w body).1 = .ok ()) ∧
    ((consume_batch handler w (msg :: rest)).2).Nodup := by
  have hsub := consume_batch_deletes_sublist handler w (msg :: rest)
  have hnotin : msg.receipt_handle ∉ rest.map SqsMsg.receipt_handle := by
    simp only [List.map, List.nodup_cons] at hnd
    exact hnd.1
  refine ⟨hsub, ?_, hnd.sublist hsub⟩
  rw [consume_batch_cons]
  split
  · rename_i e hu
    constructor
    · intro hmem
      exact absurd ((consume_batch_deletes_sublist handler w rest).mem hmem) hnotin
    · rintro ⟨body, hb, _⟩
      rw [hu] at hb
      cases hb
  · rename_i body hu
    split
    · rename_i u hh
      constructor
      · intro _
        refine ⟨body, hu, ?_⟩
        cases u
        exact hh
      · intro _
        exact List.mem_cons_self _ _
    · rename_i e hh
      constructor
      · intro hmem
        exact absurd ((consume_batch_deletes_sublist handler
          (handler w body).2 rest).mem hmem) hnotin
      · rintro ⟨body2, hb2, hok2⟩
        rw [hu] at hb2
        cases hb2
        rw [hh] at hok2
        cases hok2

/-- Witness for C8: a one-message batch whose handler succeeds has its
handle deleted. -/
theorem C8_consume_loop_delete_iff_witness :
    "r1" ∈ (consume_batch (fun (w : World) (_ : Nat) => (Except.ok (), w)) {}
      [{ receipt_handle := "r1", body := Except.ok (ParsedBody.plain 0) }]).2 := by
  have h := (C8_consume_loop_delete_iff (fun (w : World) (_ : Nat) => (Except.ok (), w)) {}
    { receipt_handle := "r1", body := Except.ok (ParsedBody.plain 0) } [] (by decide)).2.1
  exact h.mpr ⟨0, rfl, rfl⟩

/-- C9: a captured-razorpay or manual-reconciliation payment event with a
missing provider invoice id is dropped with no provider call and the cache
untouched (the world is unchanged); with an invoice id present, a failing
mark-paid call is re-raised out of the handler. -/
theorem C9_payment_missing_invoice_id (env : Env) (w : World) (event : PaymentEventMsg) :
    (event.source = some "razorpay" →
      event.event_type.getD "" = "payment.captured" →
      pyTruthy (assocGet event.payment_entity.notes "stripe_invoice_id") = false →
      handle_payment_event env w event = (.ok (), w)) ∧
    (event.source = some "manual_reconciliation" →
      pyTruthy event.stripe_invoice_id = false →
      handle_payment_event env w event = (.ok (), w)) ∧
    (∀ inv e, event.source = some "razorpay" →
      event.event_type.getD "" = "payment.captured" →
      assocGet event.payment_entity.notes "stripe_invoice_id" = some inv → inv ≠ "" →
      env.mark_invoice_paid_result inv = .error e →
      (handle_payment_event env w event).1 = .error e) ∧
    (∀ inv e, event.source = some "manual_reconciliation" →
      event.stripe_invoice_id = some inv → inv ≠ "" →
      env.mark_invoice_paid_result inv = .error e →
      (handle_payment_event env w event).1 = .error e) := by
  refine ⟨?_, ?_, ?_, ?_⟩
  · intro hs het hmiss
    simp [handle_payment_event, hs, handle_razorpay_event, het, hmiss]
  · intro hs hmiss
    simp [handle_payment_event, hs, handle_manual_reconciliation, hmiss]
  · intro inv e hs het hinv hne hfail
    have htru : pyTruthy (some inv) = true := by
      simp [pyTruthy, hne]
    simp [handle_payment_event, hs, handle_razorpay_event, het, hinv, htru,
      stripe_mark_invoice_paid_out_of_band, hfail]
  · intro inv e hs hinv hne hfail
    have htru : pyTruthy (some inv) = true := by
      simp [pyTruthy, hne]
    simp [handle_payment_event, hs, handle_manual_reconciliation, hinv, htru,
      stripe_mark_invoice_paid_out_of_band, hfail]

/-- An oracle whose mark-invoice-paid call fails. -/
def envMarkFail : Env :=
  { envSubB with mark_invoice_paid_result := fun _ => .error "stripe down" }

/-- Witness for C9: a manual reconciliation event without an invoice id is
dropped unchanged, and one with an invoice id re-raises the failing
mark-paid call. -/
theorem C9_payment_missing_invoice_id_witness :
    (handle_payment_event envSubB {} { source := some "manual_reconciliation" }
      = (.ok (), {})) ∧
    ((handle_payment_event envMarkFail {}
        { source := some "manual_reconciliation", stripe_invoice_id := some "in_1" }).1
      = .error "stripe down") := by
  constructor
  · exact (C9_payment_missing_invoice_id envSubB {}
      { source := some "manual_reconciliation" }).2.1 rfl (by decide)
  · exact (C9_payment_missing_invoice_id envMarkFail {}
      { source := some "manual_reconciliation", stripe_invoice_id := some "in_1" }).2.2.2
      "in_1" "stripe down" rfl rfl (by decide) rfl
